import Mathlib

/-!
Shallow embedding of `src/mcp_search_linkup/server.py`: the tool catalog
(`handle_list_tools`), the tool invoker (`handle_call_tool`) and the
logging-level handler (`set_logging_level`) of the Linkup MCP server.

The external search provider (`LinkupClient().search`) is a black box: the
embedding takes it as a function argument `search : ProviderCall → Except ε ρ`
together with the string-form function `strOf : ρ → String` standing for
Python's `str(...)`. `handle_call_tool` additionally returns the list of
provider invocations it performed, so that "the provider is called exactly
once with these parameters" and "the provider is never called on a
validation failure" are statable.
-/

/-- Python value as it can appear in the `arguments` dict of a tool call.
The handler validates arguments by Python truthiness, so the embedding
carries the falsy/truthy distinction for each shape of value. -/
inductive Value where
  | none
  | bool (b : Bool)
  | int (n : Int)
  | str (s : String)
  | list (xs : List Value)

/-- Python truthiness of a `Value`: `None`, `False`, `0`, `""` and `[]`
are falsy, everything else is truthy. -/
def Value.truthy : Value → Bool
  | Value.none => false
  | Value.bool b => b
  | Value.int n => n != 0
  | Value.str s => s != ""
  | Value.list xs => !xs.isEmpty

/-- Argument mapping of a tool call: a Python dict from string keys to values. -/
abbrev PyDict := List (String × Value)

/-- Model of Python's `d.get(k)`: the value stored under `k`, or `None` when
the key is absent. -/
def dictGet (d : PyDict) (k : String) : Value :=
  match d.find? (fun p => p.1 == k) with
  | some p => p.2
  | Option.none => Value.none

/-- Schema of one property inside the tool's input schema. -/
structure PropSchema where
  type : String
  description : String
  enum : Option (List String)
  deriving DecidableEq, Repr

/-- Input schema of a tool, as declared in the catalog. -/
structure InputSchema where
  type : String
  properties : List (String × PropSchema)
  required : List String
  deriving DecidableEq, Repr

/-- Tool descriptor as returned by the tool-listing handler. -/
structure Tool where
  name : String
  description : String
  inputSchema : InputSchema
  deriving DecidableEq, Repr

/-- Embedding of `handle_list_tools`: the static single-element tool catalog
declared in the source. -/
def handle_list_tools : List Tool :=
  [ Tool.mk
      "search-web"
      "Search the web in real time using Linkup. Use this tool whenever the user needs trusted facts, news, or source-backed information. Returns comprehensive content from the most relevant sources."
      (InputSchema.mk
        "object"
        [ ("query",
            PropSchema.mk
              "string"
              "Natural language search query. Full questions work best, e.g., 'How does the new EU AI Act affect startups?'"
              Option.none),
          ("depth",
            PropSchema.mk
              "string"
              "The search depth to perform. Use 'standard' for queries with likely direct answers. Use 'deep' for complex queries requiring comprehensive analysis or multi-hop questions"
              (some ["standard", "deep"])) ]
        ["query", "depth"]) ]

/-- One invocation of the external provider's search operation, with the
keyword arguments used at the call site. -/
structure ProviderCall where
  query : Value
  depth : Value
  output_type : String

/-- Failure of a tool call: either a `ValueError` raised by the handler's own
validation, or an exception of the provider propagating through unmodified. -/
inductive ToolError (ε : Type) where
  | valueError (msg : String)
  | provider (e : ε)
  deriving DecidableEq, Repr

/-- Content item of a tool-call result. The handler's return type admits
text, image and embedded-resource items; only text is ever constructed. -/
inductive Content where
  | text (type : String) (text : String)
  | image (data : String) (mimeType : String)
  | embeddedResource (resource : String)
  deriving DecidableEq, Repr

/-- Embedding of `handle_call_tool`. Validation follows the source line by
line: unknown tool name, then falsy `arguments`, then falsy `query`, then
falsy `depth`, each raising a distinct `ValueError`; on success the provider
is invoked once with the query, the depth and the fixed output type
"searchResults", and its response's string form is wrapped as a single text
content item. The second component of the result is the list of provider
invocations performed. -/
def handle_call_tool {ε ρ : Type} (search : ProviderCall → Except ε ρ)
    (strOf : ρ → String) (name : String) (arguments : Option PyDict) :
    Except (ToolError ε) (List Content) × List ProviderCall :=
  if name != "search-web" then
    (Except.error (ToolError.valueError ("Unknown tool: " ++ name)), [])
  else
    match arguments with
    | Option.none => (Except.error (ToolError.valueError "Missing arguments"), [])
    | some args =>
      if args.isEmpty then
        (Except.error (ToolError.valueError "Missing arguments"), [])
      else
        let query := dictGet args "query"
        if !query.truthy then
          (Except.error (ToolError.valueError "Missing query"), [])
        else
          let depth := dictGet args "depth"
          if !depth.truthy then
            (Except.error (ToolError.valueError "Missing depth"), [])
          else
            let call : ProviderCall := ProviderCall.mk query depth "searchResults"
            match search call with
            | Except.error e => (Except.error (ToolError.provider e), [call])
            | Except.ok r => (Except.ok [Content.text "text" (strOf r)], [call])

/-- Log message sent to the connected client over the protocol session. -/
structure LogMessage where
  level : String
  data : String
  logger : String
  deriving DecidableEq, Repr

/-- Empty acknowledgment result of the logging-level handler. -/
structure EmptyResult where
  deriving DecidableEq, Repr

/-- Observable action of the logging-level handler, in execution order:
updating the process-wide logger threshold, and sending a log message to
the session. -/
inductive LogEvent where
  | setLevel (level : String)
  | sessionSend (msg : LogMessage)
  deriving DecidableEq, Repr

/-- Process-wide state touched by the logging-level handler: the logger's
threshold (a level name, as passed to `logger.setLevel`), plus the messages
delivered to the connected session so far. -/
structure ServerState where
  loggerLevel : String
  sessionLog : List LogMessage
  deriving DecidableEq, Repr

/-- Numeric value of a Python logging level name, as `logging.setLevel`
resolves upper-case level strings (unknown names are not levels). -/
def levelNo : String → Option Nat
  | "CRITICAL" => some 50
  | "FATAL" => some 50
  | "ERROR" => some 40
  | "WARN" => some 30
  | "WARNING" => some 30
  | "INFO" => some 20
  | "DEBUG" => some 10
  | "NOTSET" => some 0
  | _ => Option.none

/-- Whether the process logger would emit a record of numeric level `lvl`
under the current threshold: records strictly below the threshold are
suppressed. -/
def loggerIsEnabledFor (st : ServerState) (lvl : Nat) : Bool :=
  match levelNo st.loggerLevel with
  | some threshold => threshold ≤ lvl
  | Option.none => false

/-- Model of Python's `str.upper()` as used on level names (all ASCII):
upper-case every character of the string. -/
def strUpper (s : String) : String := String.mk (s.data.map Char.toUpper)

/-- Embedding of `set_logging_level`. The handler calls
`logger.setLevel(level.upper())`: Python's `setLevel` accepts a string only
if it is a name in its level table (`levelNo`), and raises
`ValueError("Unknown level: %r")` otherwise — in that case no session
message is sent and no result is returned. On a recognized name it sets the
upper-cased name as the logger's threshold, then sends one "info"-level
confirmation message through the session (not through the process logger),
and returns an empty acknowledgment. The event list records the two
successful actions in order. -/
def set_logging_level (level : String) (st : ServerState) :
    Except String (ServerState × List LogEvent × EmptyResult) :=
  let newLevel := strUpper level
  match levelNo newLevel with
  | Option.none => Except.error ("Unknown level: '" ++ newLevel ++ "'")
  | some _ =>
    let st1 : ServerState := ServerState.mk newLevel st.sessionLog
    let msg : LogMessage :=
      LogMessage.mk "info" ("Log level set to " ++ level) "mcp-search-linkup"
    let st2 : ServerState := ServerState.mk st1.loggerLevel (st1.sessionLog ++ [msg])
    Except.ok (st2, [LogEvent.setLevel newLevel, LogEvent.sessionSend msg],
      EmptyResult.mk)

/-- Stubbed provider used to instantiate theorems: answers a string query
with its length and any other query with 0. -/
def searchStubA : ProviderCall → Except Unit Nat :=
  fun c =>
    match c.query with
    | Value.str s => Except.ok s.length
    | _ => Except.ok 0

/-- Second stubbed provider: agrees with `searchStubA` on string queries and
differs from it everywhere else. -/
def searchStubB : ProviderCall → Except Unit Nat :=
  fun c =>
    match c.query with
    | Value.str s => Except.ok s.length
    | _ => Except.ok 99

/-- Branch lemma: an unrecognized tool name raises the unknown-tool error
before anything else, whatever the arguments are. -/
theorem hct_wrong_name {ε ρ : Type} (search : ProviderCall → Except ε ρ)
    (strOf : ρ → String) (name : String) (arguments : Option PyDict)
    (h : name ≠ "search-web") :
    handle_call_tool search strOf name arguments =
      (Except.error (ToolError.valueError ("Unknown tool: " ++ name)), []) := by
  simp [handle_call_tool, bne_iff_ne, h]

/-- Branch lemma: absent arguments raise the missing-arguments error. -/
theorem hct_args_none {ε ρ : Type} (search : ProviderCall → Except ε ρ)
    (strOf : ρ → String) :
    handle_call_tool search strOf "search-web" Option.none =
      (Except.error (ToolError.valueError "Missing arguments"), []) := rfl

/-- Branch lemma: an empty argument dict is falsy and raises the
missing-arguments error. -/
theorem hct_args_empty {ε ρ : Type} (search : ProviderCall → Except ε ρ)
    (strOf : ρ → String) (args : PyDict) (he : args.isEmpty = true) :
    handle_call_tool search strOf "search-web" (some args) =
      (Except.error (ToolError.valueError "Missing arguments"), []) := by
  simp [handle_call_tool, he]

/-- Branch lemma: a falsy query raises the missing-query error. -/
theorem hct_missing_query {ε ρ : Type} (search : ProviderCall → Except ε ρ)
    (strOf : ρ → String) (args : PyDict) (he : args.isEmpty = false)
    (hq : (dictGet args "query").truthy = false) :
    handle_call_tool search strOf "search-web" (some args) =
      (Except.error (ToolError.valueError "Missing query"), []) := by
  simp [handle_call_tool, he, hq]

/-- Branch lemma: a truthy query and a falsy depth raise the missing-depth
error. -/
theorem hct_missing_depth {ε ρ : Type} (search : ProviderCall → Except ε ρ)
    (strOf : ρ → String) (args : PyDict) (he : args.isEmpty = false)
    (hq : (dictGet args "query").truthy = true)
    (hd : (dictGet args "depth").truthy = false) :
    handle_call_tool search strOf "search-web" (some args) =
      (Except.error (ToolError.valueError "Missing depth"), []) := by
  simp [handle_call_tool, he, hq, hd]

/-- Branch lemma: with validation passed and the provider failing, the
provider's exception propagates and exactly one provider call was made. -/
theorem hct_provider_error {ε ρ : Type} (search : ProviderCall → Except ε ρ)
    (strOf : ρ → String) (args : PyDict) (e : ε) (he : args.isEmpty = false)
    (hq : (dictGet args "query").truthy = true)
    (hd : (dictGet args "depth").truthy = true)
    (hs : search (ProviderCall.mk (dictGet args "query") (dictGet args "depth")
      "searchResults") = Except.error e) :
    handle_call_tool search strOf "search-web" (some args) =
      (Except.error (ToolError.provider e),
       [ProviderCall.mk (dictGet args "query") (dictGet args "depth")
        "searchResults"]) := by
  simp [handle_call_tool, he, hq, hd, hs]

/-- Branch lemma: with validation passed and the provider succeeding, the
response's string form is wrapped as one text item and exactly one provider
call was made. -/
theorem hct_provider_ok {ε ρ : Type} (search : ProviderCall → Except ε ρ)
    (strOf : ρ → String) (args : PyDict) (r : ρ) (he : args.isEmpty = false)
    (hq : (dictGet args "query").truthy = true)
    (hd : (dictGet args "depth").truthy = true)
    (hs : search (ProviderCall.mk (dictGet args "query") (dictGet args "depth")
      "searchResults") = Except.ok r) :
    handle_call_tool search strOf "search-web" (some args) =
      (Except.ok [Content.text "text" (strOf r)],
       [ProviderCall.mk (dictGet args "query") (dictGet args "depth")
        "searchResults"]) := by
  simp [handle_call_tool, he, hq, hd, hs]

/-- A dict with a truthy value under some key is not empty. -/
theorem truthy_get_nonempty (args : PyDict) (k : String)
    (h : (dictGet args k).truthy = true) : args.isEmpty = false := by
  cases args with
  | nil => simp [dictGet, Value.truthy] at h
  | cons a l => rfl

/-- Complete case analysis of `handle_call_tool`: either validation fails
with some `ValueError` and an empty provider trace, or the call is fully
validated with a truthy query and depth. -/
theorem hct_cases {ε ρ : Type} (search : ProviderCall → Except ε ρ)
    (strOf : ρ → String) (name : String) (arguments : Option PyDict) :
    (∃ m, handle_call_tool search strOf name arguments =
        (Except.error (ToolError.valueError m), [])) ∨
    (name = "search-web" ∧ ∃ args, arguments = some args ∧
      args.isEmpty = false ∧ (dictGet args "query").truthy = true ∧
      (dictGet args "depth").truthy = true) := by
  by_cases hn : name = "search-web"
  · subst hn
    cases arguments with
    | none => exact Or.inl ⟨"Missing arguments", hct_args_none search strOf⟩
    | some args =>
      cases he : args.isEmpty with
      | true =>
        exact Or.inl ⟨"Missing arguments", hct_args_empty search strOf args he⟩
      | false =>
        cases hq : (dictGet args "query").truthy with
        | false =>
          exact Or.inl ⟨"Missing query", hct_missing_query search strOf args he hq⟩
        | true =>
          cases hd : (dictGet args "depth").truthy with
          | false =>
            exact Or.inl
              ⟨"Missing depth", hct_missing_depth search strOf args he hq hd⟩
          | true => exact Or.inr ⟨rfl, args, rfl, he, hq, hd⟩
  · exact Or.inl ⟨"Unknown tool: " ++ name, hct_wrong_name search strOf name arguments hn⟩

/-- C1: a "search-web" call whose arguments carry a non-empty (truthy) query
and depth invokes the provider's search exactly once, with that query, that
depth and the fixed output type "searchResults", and returns a single-element
sequence holding one text content item whose text is exactly the string form
of the provider's response. -/
theorem c1_provider_pass_through {ε ρ : Type} (search : ProviderCall → Except ε ρ)
    (strOf : ρ → String) (args : PyDict) (r : ρ)
    (hq : (dictGet args "query").truthy = true)
    (hd : (dictGet args "depth").truthy = true)
    (hr : search (ProviderCall.mk (dictGet args "query") (dictGet args "depth")
      "searchResults") = Except.ok r) :
    handle_call_tool search strOf "search-web" (some args) =
      (Except.ok [Content.text "text" (strOf r)],
       [ProviderCall.mk (dictGet args "query") (dictGet args "depth")
        "searchResults"]) :=
  hct_provider_ok search strOf args r (truthy_get_nonempty args "query" hq) hq hd hr

/-- Witness for C1: a stubbed provider returning 42 yields the single text
item "42" and exactly one provider invocation. -/
theorem c1_provider_pass_through_witness :
    handle_call_tool (fun _ => (Except.ok 42 : Except Unit Nat)) toString
      "search-web"
      (some [("query", Value.str "q"), ("depth", Value.str "standard")]) =
      (Except.ok [Content.text "text" "42"],
       [ProviderCall.mk (Value.str "q") (Value.str "standard")
        "searchResults"]) :=
  c1_provider_pass_through (fun _ => (Except.ok 42 : Except Unit Nat)) toString
    [("query", Value.str "q"), ("depth", Value.str "standard")] 42 rfl rfl rfl

/-- C2: the validation checks run in a fixed order, each with its own
distinct error: unknown tool name first (whatever the arguments), then
absent or empty arguments, then falsy query, then falsy depth. -/
theorem c2_validation_sequence {ε ρ : Type} (search : ProviderCall → Except ε ρ)
    (strOf : ρ → String) :
    (∀ (name : String) (arguments : Option PyDict), name ≠ "search-web" →
      handle_call_tool search strOf name arguments =
        (Except.error (ToolError.valueError ("Unknown tool: " ++ name)), [])) ∧
    (∀ arguments : Option PyDict,
      (arguments = Option.none ∨ arguments = some ([] : PyDict)) →
      handle_call_tool search strOf "search-web" arguments =
        (Except.error (ToolError.valueError "Missing arguments"), [])) ∧
    (∀ args : PyDict, args.isEmpty = false →
      (dictGet args "query").truthy = false →
      handle_call_tool search strOf "search-web" (some args) =
        (Except.error (ToolError.valueError "Missing query"), [])) ∧
    (∀ args : PyDict, args.isEmpty = false →
      (dictGet args "query").truthy = true →
      (dictGet args "depth").truthy = false →
      handle_call_tool search strOf "search-web" (some args) =
        (Except.error (ToolError.valueError "Missing depth"), [])) := by
  refine ⟨fun name arguments h => hct_wrong_name search strOf name arguments h,
    fun arguments h => ?_,
    fun args he hq => hct_missing_query search strOf args he hq,
    fun args he hq hd => hct_missing_depth search strOf args he hq hd⟩
  rcases h with h | h
  · subst h; exact hct_args_none search strOf
  · subst h; exact hct_args_empty search strOf [] rfl

/-- Witness for C2: all four validation failures observed at concrete
inputs. -/
theorem c2_validation_sequence_witness :
    handle_call_tool (fun _ => (Except.ok 0 : Except Unit Nat)) toString
      "nope" (some [("query", Value.str "q"), ("depth", Value.str "standard")]) =
      (Except.error (ToolError.valueError "Unknown tool: nope"), []) ∧
    handle_call_tool (fun _ => (Except.ok 0 : Except Unit Nat)) toString
      "search-web" Option.none =
      (Except.error (ToolError.valueError "Missing arguments"), []) ∧
    handle_call_tool (fun _ => (Except.ok 0 : Except Unit Nat)) toString
      "search-web" (some [("depth", Value.str "standard")]) =
      (Except.error (ToolError.valueError "Missing query"), []) ∧
    handle_call_tool (fun _ => (Except.ok 0 : Except Unit Nat)) toString
      "search-web" (some [("query", Value.str "q")]) =
      (Except.error (ToolError.valueError "Missing depth"), []) :=
  ⟨(c2_validation_sequence _ toString).1 "nope" _ (by decide),
   (c2_validation_sequence _ toString).2.1 Option.none (Or.inl rfl),
   (c2_validation_sequence _ toString).2.2.1 _ rfl rfl,
   (c2_validation_sequence _ toString).2.2.2 _ rfl rfl rfl⟩

/-- C3: the tool catalog is a constant of the program: it lists exactly one
tool, named "search-web", whose input schema declares exactly the properties
query (string, no enum) and depth (string, enum ["standard", "deep"]) and
requires exactly query and depth. Since `handle_list_tools` takes no state,
every call returns this same value. -/
theorem c3_static_catalog :
    handle_list_tools.length = 1 ∧
    handle_list_tools.map Tool.name = ["search-web"] ∧
    handle_list_tools.map (fun t => t.inputSchema.type) = ["object"] ∧
    handle_list_tools.map (fun t => t.inputSchema.properties.map Prod.fst) =
      [["query", "depth"]] ∧
    handle_list_tools.map
      (fun t => t.inputSchema.properties.map (fun p => p.2.type)) =
      [["string", "string"]] ∧
    handle_list_tools.map
      (fun t => t.inputSchema.properties.map (fun p => p.2.enum)) =
      [[Option.none, some ["standard", "deep"]]] ∧
    handle_list_tools.map (fun t => t.inputSchema.required) =
      [["query", "depth"]] :=
  ⟨rfl, rfl, rfl, rfl, rfl, rfl, rfl⟩

/-- C4: validation failure is atomic: whenever `handle_call_tool` fails with
a validation `ValueError` (wrong name, absent or empty arguments, missing
query, missing depth), the provider trace is empty, i.e. the external
provider was never invoked and no side effect happened first. -/
theorem c4_validation_failure_atomic {ε ρ : Type}
    (search : ProviderCall → Except ε ρ) (strOf : ρ → String) (name : String)
    (arguments : Option PyDict) (m : String)
    (h : (handle_call_tool search strOf name arguments).1 =
      Except.error (ToolError.valueError m)) :
    (handle_call_tool search strOf name arguments).2 = [] := by
  rcases hct_cases search strOf name arguments with ⟨m2, hm⟩ | ⟨hn, args, ha, he, hq, hd⟩
  · rw [hm]
  · subst hn; subst ha
    cases hs : search (ProviderCall.mk (dictGet args "query")
        (dictGet args "depth") "searchResults") with
    | error e =>
      rw [hct_provider_error search strOf args e he hq hd hs] at h
      simp at h
    | ok r =>
      rw [hct_provider_ok search strOf args r he hq hd hs] at h
      simp at h

/-- Witness for C4: an unknown tool name fails with an empty provider
trace. -/
theorem c4_validation_failure_atomic_witness :
    (handle_call_tool (fun _ => (Except.ok 0 : Except Unit Nat)) toString
      "nope" Option.none).2 = [] :=
  c4_validation_failure_atomic (fun _ => (Except.ok 0 : Except Unit Nat))
    toString "nope" Option.none "Unknown tool: nope" rfl

/-- C5: any non-empty depth string passes validation, even outside the
advertised enum: the call is not rejected with a `ValueError`, and the depth
value is forwarded to the provider unchanged. -/
theorem c5_depth_not_revalidated {ε ρ : Type}
    (search : ProviderCall → Except ε ρ) (strOf : ρ → String) (args : PyDict)
    (s : String) (hq : (dictGet args "query").truthy = true)
    (hd : dictGet args "depth" = Value.str s) (hs : s ≠ "") :
    (∀ m, (handle_call_tool search strOf "search-web" (some args)).1 ≠
      Except.error (ToolError.valueError m)) ∧
    (handle_call_tool search strOf "search-web" (some args)).2 =
      [ProviderCall.mk (dictGet args "query") (Value.str s) "searchResults"] := by
  have he := truthy_get_nonempty args "query" hq
  have hd' : (dictGet args "depth").truthy = true := by
    rw [hd]; simp [Value.truthy, hs]
  constructor
  · intro m
    cases hsr : search (ProviderCall.mk (dictGet args "query")
        (dictGet args "depth") "searchResults") with
    | error e => rw [hct_provider_error search strOf args e he hq hd' hsr]; simp
    | ok r => rw [hct_provider_ok search strOf args r he hq hd' hsr]; simp
  · cases hsr : search (ProviderCall.mk (dictGet args "query")
        (dictGet args "depth") "searchResults") with
    | error e => rw [hct_provider_error search strOf args e he hq hd' hsr]; simp [hd]
    | ok r => rw [hct_provider_ok search strOf args r he hq hd' hsr]; simp [hd]

/-- Witness for C5: the depth "turbo", outside the advertised enum, is
accepted and forwarded verbatim. -/
theorem c5_depth_not_revalidated_witness :
    (∀ m, (handle_call_tool (fun _ => (Except.ok 7 : Except Unit Nat)) toString
      "search-web"
      (some [("query", Value.str "q"), ("depth", Value.str "turbo")])).1 ≠
      Except.error (ToolError.valueError m)) ∧
    (handle_call_tool (fun _ => (Except.ok 7 : Except Unit Nat)) toString
      "search-web"
      (some [("query", Value.str "q"), ("depth", Value.str "turbo")])).2 =
      [ProviderCall.mk (Value.str "q") (Value.str "turbo") "searchResults"] :=
  c5_depth_not_revalidated (fun _ => (Except.ok 7 : Except Unit Nat)) toString
    [("query", Value.str "q"), ("depth", Value.str "turbo")] "turbo"
    rfl rfl (by decide)

/-- C6: a provider failure propagates out of `handle_call_tool` unmodified:
the very exception raised by the search call is surfaced (not caught, not
reclassified), and the trace shows a single invocation (no retry). -/
theorem c6_provider_error_propagates {ε ρ : Type}
    (search : ProviderCall → Except ε ρ) (strOf : ρ → String) (args : PyDict)
    (e : ε) (hq : (dictGet args "query").truthy = true)
    (hd : (dictGet args "depth").truthy = true)
    (hs : search (ProviderCall.mk (dictGet args "query") (dictGet args "depth")
      "searchResults") = Except.error e) :
    handle_call_tool search strOf "search-web" (some args) =
      (Except.error (ToolError.provider e),
       [ProviderCall.mk (dictGet args "query") (dictGet args "depth")
        "searchResults"]) :=
  hct_provider_error search strOf args e (truthy_get_nonempty args "query" hq)
    hq hd hs

/-- Witness for C6: a provider raising the string exception "boom" surfaces
exactly that exception after one invocation. -/
theorem c6_provider_error_propagates_witness :
    handle_call_tool (fun _ => (Except.error "boom" : Except String Nat))
      toString "search-web"
      (some [("query", Value.str "q"), ("depth", Value.str "deep")]) =
      (Except.error (ToolError.provider "boom"),
       [ProviderCall.mk (Value.str "q") (Value.str "deep") "searchResults"]) :=
  c6_provider_error_propagates
    (fun _ => (Except.error "boom" : Except String Nat)) toString
    [("query", Value.str "q"), ("depth", Value.str "deep")] "boom" rfl rfl rfl

/-- Counterexample to C7 as stated: at the level "notice" — a value of the
protocol's LoggingLevel type, so a reachable request — `setLevel("NOTICE")`
raises ValueError, so the handler neither updates the threshold, nor sends
a session message, nor returns an empty acknowledgment. -/
theorem c7_set_logging_level_counterexample :
    set_logging_level "notice" (ServerState.mk "INFO" []) =
      Except.error "Unknown level: 'NOTICE'" ∧
    ∀ out, set_logging_level "notice" (ServerState.mk "INFO" []) ≠
      Except.ok out := by
  refine ⟨rfl, fun out h => ?_⟩
  have h0 : set_logging_level "notice" (ServerState.mk "INFO" []) =
      Except.error "Unknown level: 'NOTICE'" := rfl
  rw [h0] at h
  exact Except.noConfusion h

/-- C7 (amended): for every requested logging level whose upper-cased name
is in Python's level table, `set_logging_level` updates the process-wide
threshold to that level (stored as its upper-cased name, which names the
same level), appends exactly one informational log message to the connected
session, and returns the empty acknowledgment result; the remaining levels
of the protocol's LoggingLevel type (notice, alert, emergency) instead
raise ValueError inside `setLevel`. -/
theorem c7_set_logging_level_contract (level : String) (st : ServerState)
    (n : Nat) (h : levelNo (strUpper level) = some n) :
    set_logging_level level st =
      Except.ok
        (ServerState.mk (strUpper level)
          (st.sessionLog ++
            [LogMessage.mk "info" ("Log level set to " ++ level)
              "mcp-search-linkup"]),
         [LogEvent.setLevel (strUpper level),
          LogEvent.sessionSend (LogMessage.mk "info"
            ("Log level set to " ++ level) "mcp-search-linkup")],
         EmptyResult.mk) := by
  simp only [set_logging_level]
  rw [h]

/-- Witness for C7: requesting "info" sets the threshold to INFO, sends the
one confirmation message and returns the empty result. -/
theorem c7_set_logging_level_contract_witness :
    set_logging_level "info" (ServerState.mk "WARNING" []) =
      Except.ok
        (ServerState.mk "INFO"
          [LogMessage.mk "info" "Log level set to info" "mcp-search-linkup"],
         [LogEvent.setLevel "INFO",
          LogEvent.sessionSend
            (LogMessage.mk "info" "Log level set to info" "mcp-search-linkup")],
         EmptyResult.mk) :=
  c7_set_logging_level_contract "info" (ServerState.mk "WARNING" []) 20 rfl

/-- C8: the result of `handle_call_tool` depends only on its own name and
arguments and on the provider's responses to the very calls it makes: two
providers that agree on those calls produce identical results, so an
invocation can never receive another invocation's provider result. -/
theorem c8_result_isolation {ε ρ : Type}
    (search₁ search₂ : ProviderCall → Except ε ρ) (strOf : ρ → String)
    (name : String) (arguments : Option PyDict)
    (h : ∀ c ∈ (handle_call_tool search₁ strOf name arguments).2,
      search₁ c = search₂ c) :
    handle_call_tool search₁ strOf name arguments =
      handle_call_tool search₂ strOf name arguments := by
  by_cases hn : name = "search-web"
  · subst hn
    cases arguments with
    | none => rfl
    | some args =>
      cases he : args.isEmpty with
      | true =>
        rw [hct_args_empty search₁ strOf args he,
          hct_args_empty search₂ strOf args he]
      | false =>
        cases hq : (dictGet args "query").truthy with
        | false =>
          rw [hct_missing_query search₁ strOf args he hq,
            hct_missing_query search₂ strOf args he hq]
        | true =>
          cases hd : (dictGet args "depth").truthy with
          | false =>
            rw [hct_missing_depth search₁ strOf args he hq hd,
              hct_missing_depth search₂ strOf args he hq hd]
          | true =>
            cases hs : search₁ (ProviderCall.mk (dictGet args "query")
                (dictGet args "depth") "searchResults") with
            | error e =>
              have h2 := hct_provider_error search₁ strOf args e he hq hd hs
              have hc := h (ProviderCall.mk (dictGet args "query")
                (dictGet args "depth") "searchResults")
                (by rw [h2]; exact List.mem_singleton_self _)
              rw [h2, hct_provider_error search₂ strOf args e he hq hd
                (hc.symm.trans hs)]
            | ok r =>
              have h2 := hct_provider_ok search₁ strOf args r he hq hd hs
              have hc := h (ProviderCall.mk (dictGet args "query")
                (dictGet args "depth") "searchResults")
                (by rw [h2]; exact List.mem_singleton_self _)
              rw [h2, hct_provider_ok search₂ strOf args r he hq hd
                (hc.symm.trans hs)]
  · rw [hct_wrong_name search₁ strOf name arguments hn,
      hct_wrong_name search₂ strOf name arguments hn]

/-- Witness for C8: two stubbed providers that agree on the one call made
(but differ on other calls) yield identical tool-call results. -/
theorem c8_result_isolation_witness :
    handle_call_tool searchStubA toString "search-web"
      (some [("query", Value.str "abc"), ("depth", Value.str "deep")]) =
      handle_call_tool searchStubB toString "search-web"
        (some [("query", Value.str "abc"), ("depth", Value.str "deep")]) :=
  c8_result_isolation searchStubA searchStubB toString "search-web"
    (some [("query", Value.str "abc"), ("depth", Value.str "deep")])
    (fun c hc => by
      have ht : (handle_call_tool searchStubA toString "search-web"
          (some [("query", Value.str "abc"), ("depth", Value.str "deep")])).2 =
          [ProviderCall.mk (Value.str "abc") (Value.str "deep")
            "searchResults"] := rfl
      rw [ht] at hc
      rw [List.mem_singleton.mp hc]
      rfl)

/-- C9: `handle_call_tool` raises a validation `ValueError` exactly when the
name is not "search-web" or the arguments, the query or the depth are falsy;
validation is truthiness-based and untyped, so any truthy value of any type
for query or depth passes and is forwarded to the provider verbatim. -/
theorem c9_truthiness_characterization {ε ρ : Type}
    (search : ProviderCall → Except ε ρ) (strOf : ρ → String) (name : String)
    (arguments : Option PyDict) :
    ((∃ m, (handle_call_tool search strOf name arguments).1 =
        Except.error (ToolError.valueError m)) ↔
      (name ≠ "search-web" ∨ arguments = Option.none ∨
        ∃ args, arguments = some args ∧
          (args.isEmpty = true ∨ (dictGet args "query").truthy = false ∨
           (dictGet args "depth").truthy = false))) ∧
    (∀ args : PyDict, name = "search-web" → arguments = some args →
      (dictGet args "query").truthy = true →
      (dictGet args "depth").truthy = true →
      (handle_call_tool search strOf name arguments).2 =
        [ProviderCall.mk (dictGet args "query") (dictGet args "depth")
         "searchResults"]) := by
  constructor
  · by_cases hn : name = "search-web"
    · subst hn
      cases arguments with
      | none =>
        refine iff_of_true ⟨"Missing arguments", ?_⟩ (Or.inr (Or.inl rfl))
        rw [hct_args_none search strOf]
      | some args =>
        cases he : args.isEmpty with
        | true =>
          refine iff_of_true ⟨"Missing arguments", ?_⟩
            (Or.inr (Or.inr ⟨args, rfl, Or.inl he⟩))
          rw [hct_args_empty search strOf args he]
        | false =>
          cases hq : (dictGet args "query").truthy with
          | false =>
            refine iff_of_true ⟨"Missing query", ?_⟩
              (Or.inr (Or.inr ⟨args, rfl, Or.inr (Or.inl hq)⟩))
            rw [hct_missing_query search strOf args he hq]
          | true =>
            cases hd : (dictGet args "depth").truthy with
            | false =>
              refine iff_of_true ⟨"Missing depth", ?_⟩
                (Or.inr (Or.inr ⟨args, rfl, Or.inr (Or.inr hd)⟩))
              rw [hct_missing_depth search strOf args he hq hd]
            | true =>
              refine iff_of_false ?_ ?_
              · rintro ⟨m, hm⟩
                cases hs : search (ProviderCall.mk (dictGet args "query")
                    (dictGet args "depth") "searchResults") with
                | error e =>
                  rw [hct_provider_error search strOf args e he hq hd hs] at hm
                  simp at hm
                | ok r =>
                  rw [hct_provider_ok search strOf args r he hq hd hs] at hm
                  simp at hm
              · rintro (hx | hx | ⟨args2, ha2, hx⟩)
                · exact hx rfl
                · exact Option.noConfusion hx
                · cases Option.some.inj ha2
                  rcases hx with hx | hx | hx
                  · rw [he] at hx; exact Bool.noConfusion hx
                  · rw [hq] at hx; exact Bool.noConfusion hx
                  · rw [hd] at hx; exact Bool.noConfusion hx
    · refine iff_of_true ⟨"Unknown tool: " ++ name, ?_⟩ (Or.inl hn)
      rw [hct_wrong_name search strOf name arguments hn]
  · intro args hn ha hq hd
    subst hn; subst ha
    have he := truthy_get_nonempty args "query" hq
    cases hs : search (ProviderCall.mk (dictGet args "query")
        (dictGet args "depth") "searchResults") with
    | error e => rw [hct_provider_error search strOf args e he hq hd hs]
    | ok r => rw [hct_provider_ok search strOf args r he hq hd hs]

/-- Witness for C9: the truthy non-string values 7 (a number) and a
non-empty list pass validation and are forwarded verbatim as query and
depth. -/
theorem c9_truthiness_characterization_witness :
    (handle_call_tool (fun _ => (Except.ok 0 : Except Unit Nat)) toString
      "search-web"
      (some [("query", Value.int 7), ("depth", Value.list [Value.str "x"])])).2 =
      [ProviderCall.mk (Value.int 7) (Value.list [Value.str "x"])
        "searchResults"] :=
  (c9_truthiness_characterization (fun _ => (Except.ok 0 : Except Unit Nat))
    toString "search-web"
    (some [("query", Value.int 7), ("depth", Value.list [Value.str "x"])])).2
    [("query", Value.int 7), ("depth", Value.list [Value.str "x"])]
    rfl rfl rfl rfl

/-- Counterexample to C10 as stated: at the reachable protocol level
"alert" the handler raises inside `setLevel`, so the
threshold-update-then-send sequence never happens and nothing reaches the
session. -/
theorem c10_logging_counterexample :
    set_logging_level "alert" (ServerState.mk "INFO" []) =
      Except.error "Unknown level: 'ALERT'" ∧
    ∀ out, set_logging_level "alert" (ServerState.mk "INFO" []) ≠
      Except.ok out := by
  refine ⟨rfl, fun out h => ?_⟩
  have h0 : set_logging_level "alert" (ServerState.mk "INFO" []) =
      Except.error "Unknown level: 'ALERT'" := rfl
  rw [h0] at h
  exact Except.noConfusion h

/-- C10 (amended): for every requested level whose upper-cased name is in
Python's level table, `set_logging_level` upper-cases the level before
storing it as the logger threshold, performs the threshold update strictly
before sending the single confirmation message, and delivers that
confirmation through the session regardless of the new threshold; in
particular after requesting "error" the process logger would suppress an
informational record (level 20), yet the session still receives the
confirmation. Levels outside the table (notice, alert, emergency) raise
inside `setLevel` and send nothing. -/
theorem c10_logging_uppercase_order_session (level : String) (st : ServerState)
    (n : Nat) (h : levelNo (strUpper level) = some n) :
    (set_logging_level level st).toOption.map (fun out => out.2.1) =
      some [LogEvent.setLevel (strUpper level),
        LogEvent.sessionSend (LogMessage.mk "info"
          ("Log level set to " ++ level) "mcp-search-linkup")] ∧
    (set_logging_level level st).toOption.map (fun out => out.1.sessionLog) =
      some (st.sessionLog ++
        [LogMessage.mk "info" ("Log level set to " ++ level)
          "mcp-search-linkup"]) ∧
    (set_logging_level "error" st).toOption.map
      (fun out => loggerIsEnabledFor out.1 20) = some false ∧
    (set_logging_level "error" st).toOption.map (fun out => out.1.sessionLog) =
      some (st.sessionLog ++
        [LogMessage.mk "info" "Log level set to error" "mcp-search-linkup"]) := by
  refine ⟨?_, ?_, rfl, rfl⟩ <;> (simp only [set_logging_level]; rw [h]) <;> rfl

/-- Witness for C10: requesting "error" yields the setLevel-then-send event
sequence, and the confirmation reaches the session although an
informational record is now below the ERROR threshold. -/
theorem c10_logging_uppercase_order_session_witness :
    (set_logging_level "error" (ServerState.mk "INFO" [])).toOption.map
      (fun out => out.2.1) =
      some [LogEvent.setLevel "ERROR",
        LogEvent.sessionSend (LogMessage.mk "info" "Log level set to error"
          "mcp-search-linkup")] ∧
    (set_logging_level "error" (ServerState.mk "INFO" [])).toOption.map
      (fun out => out.1.sessionLog) =
      some [LogMessage.mk "info" "Log level set to error" "mcp-search-linkup"] ∧
    (set_logging_level "error" (ServerState.mk "INFO" [])).toOption.map
      (fun out => loggerIsEnabledFor out.1 20) = some false ∧
    (set_logging_level "error" (ServerState.mk "INFO" [])).toOption.map
      (fun out => out.1.sessionLog) =
      some [LogMessage.mk "info" "Log level set to error" "mcp-search-linkup"] :=
  c10_logging_uppercase_order_session "error" (ServerState.mk "INFO" []) 40 rfl
